import Mathlib

/-!
# Shallow embedding of `src/sync_server.py` (Portail Vie Scolaire sync backend)

The store core of `sync_server.py` manipulates JSON-like Python values: the
module-level `STORE` dict (keys `rev`, `updated_at`, `state`, `history`),
the decoded request body, and the history entries.  We embed those values as
the inductive type `Value` below (Python `None`, `bool`, `int`, `str`,
`list`, `dict`; JSON floats never reach the store logic exercised by the
claims and are omitted from the universe).

Python built-ins used by the source are embedded explicitly:
* truthiness (`not data`, `raw.get("rev", 0) or 0`) as `pyTruthy`;
* `int(x)` as the partial function `pyInt` (`none` models a raised
  `ValueError`/`TypeError`);
* `str(x)` as the total function `pyStr` (for `list`/`dict` arguments we do
  not reproduce CPython's exact rendering, only a non-empty bracketed string,
  which is all the store logic depends on: the code only tests the result
  for emptiness or passes it through);
* `dict.get` / `dict[...] = ...` as first-occurrence association-list
  lookup/update (Python dicts have unique keys, and assignment preserves the
  position of an existing key).

`iso_now()` (wall-clock time) is passed in as an explicit `now : String`
parameter to every function that calls it in the source.
-/

/-- A Python/JSON value as it occurs in the sync-server store logic. -/
inductive Value where
  | null : Value
  | bool (b : Bool) : Value
  | int (n : Int) : Value
  | str (s : String) : Value
  | list (xs : List Value) : Value
  | obj (fields : List (String × Value)) : Value

namespace Value

/-- `isinstance(v, dict)` -/
def isObj : Value → Bool
  | .obj _ => true
  | _ => false

/-- `isinstance(v, list)` -/
def isList : Value → Bool
  | .list _ => true
  | _ => false

end Value

/-- Python truthiness: `None`, `False`, `0`, `""`, `[]` and `\x7b\x7d` are falsy. -/
def pyTruthy : Value → Bool
  | .null => false
  | .bool b => b
  | .int n => n != 0
  | .str s => !s.isEmpty
  | .list xs => !xs.isEmpty
  | .obj fs => !fs.isEmpty

/-- The whitespace characters CPython's `int(str)` strips (ASCII range). -/
def pyIntSpace (c : Char) : Bool :=
  c == ' ' || c == '\t' || c == '\n' || c == '\r' || c == '\x0b' || c == '\x0c'

/-- Drop leading `int(str)` whitespace. -/
def dropSpaces : List Char → List Char
  | [] => []
  | c :: cs => if pyIntSpace c then dropSpaces cs else c :: cs

/-- Accumulate decimal digits left to right; `none` on any non-digit. -/
def digitsVal : List Char → Nat → Option Nat
  | [], acc => some acc
  | c :: cs, acc =>
    if c.isDigit then digitsVal cs (acc * 10 + (c.toNat - 48)) else none

/-- A non-empty all-digit sequence, as a natural number. -/
def digitsValNE : List Char → Option Nat
  | [] => none
  | cs => digitsVal cs 0

/-- Python `int(s)` on a string: strip surrounding whitespace, then an
optional sign followed by a non-empty run of decimal digits; anything else
raises (`none`).  (CPython additionally accepts digit-group underscores and
non-ASCII whitespace/digits; those forms occur in nothing this development
evaluates.) -/
def pyIntOfString (s : String) : Option Int :=
  match (dropSpaces (dropSpaces s.data).reverse).reverse with
  | '-' :: rest => (digitsValNE rest).map (fun n => -(n : Int))
  | '+' :: rest => (digitsValNE rest).map (fun n => (n : Int))
  | rest => (digitsValNE rest).map (fun n => (n : Int))

/-- Python `int(v)`: identity on ints, `0`/`1` on bools, decimal parse on
strings; every other argument raises a `TypeError` (`none`). -/
def pyInt : Value → Option Int
  | .int n => some n
  | .bool b => some (if b then 1 else 0)
  | .str s => pyIntOfString s
  | _ => none

/-- Python `str(v)`.  Exact for the cases the store logic depends on
(strings, ints, bools, `None`); for `list`/`dict` we produce a non-empty
bracketed placeholder rather than CPython's recursive repr, since the code
never inspects that text beyond passing it through or testing emptiness. -/
def pyStr : Value → String
  | .str s => s
  | .int n => toString n
  | .bool b => if b then "True" else "False"
  | .null => "None"
  | .list _ => "[...]"
  | .obj _ => "\x7b...\x7d"

/-- First-occurrence lookup in an association list (Python dict keys are
unique, so this is exactly `dict` lookup). -/
def findVal : List (String × Value) → String → Option Value
  | [], _ => none
  | p :: ps, k => if p.1 == k then some p.2 else findVal ps k

/-- Python `d.get(k)` (with `None` for a missing key handled by callers
through `dgetD`). -/
def dget : Value → String → Option Value
  | .obj fs, k => findVal fs k
  | _, _ => none

/-- Python `d.get(k, default)`. -/
def dgetD (v : Value) (k : String) (default : Value) : Value :=
  (dget v k).getD default

/-- Python `d[k] = v` on the underlying field list: replace the value at the
first (unique) occurrence of `k`, keeping its position; append if absent.
(`setdefault` followed by a final assignment to the same key has the same
effect on the dict, which is how `do_POST` uses it.) -/
def dsetList : List (String × Value) → String → Value → List (String × Value)
  | [], k, v => [(k, v)]
  | p :: ps, k, v => if p.1 == k then (k, v) :: ps else p :: dsetList ps k v

/-- Python `d[k] = v`.  In the source this is only ever applied to the
`STORE` dict, which is always a dict (`_default_store`/`_normalize_store`
output); on a non-dict we return the value unchanged. -/
def dset : Value → String → Value → Value
  | .obj fs, k, v => .obj (dsetList fs k v)
  | w, _, _ => w

/-- The keys of a dict value, in order. -/
def objKeys : Value → List String
  | .obj fs => fs.map Prod.fst
  | _ => []

/-- `_default_store()` from `sync_server.py` (`now` stands for `iso_now()`):
`\x7b"rev": 0, "updated_at": iso_now(), "state": \x7b\x7d, "history": []\x7d`. -/
def _default_store (now : String) : Value :=
  .obj [("rev", .int 0), ("updated_at", .str now), ("state", .obj []),
        ("history", .list [])]

/-- `_normalize_store(raw)` from `sync_server.py`.  Returns `none` when the
Python function raises: the only raising step is `int(raw.get("rev", 0) or 0)`
when the stored `rev` is truthy but not convertible to an integer. -/
def _normalize_store (now : String) (raw : Value) : Option Value :=
  match raw with
  | .obj _ =>
    let rawRev := dgetD raw "rev" (.int 0)
    match pyInt (if pyTruthy rawRev then rawRev else .int 0) with
    | none => none
    | some rev =>
      let ua := pyStr (dgetD raw "updated_at" (.str ""))
      let updated_at := if ua.isEmpty then now else ua
      let state0 := dgetD raw "state" (.obj [])
      let state := if state0.isObj then state0 else .obj []
      let hist0 := dgetD raw "history" (.list [])
      let history := match hist0 with
        | .list xs => xs
        | _ => []
      some (.obj [("rev", .int rev), ("updated_at", .str updated_at),
                  ("state", state), ("history", .list (history.take 200))])
  | _ => some (_default_store now)

/-- `_read_store()` from `sync_server.py`, with the file system abstracted:
`fileContent = none` models a missing/unreadable/unparsable backing file
(and a `_normalize_store` exception is caught by the same `except`),
`some v` a file whose JSON decodes to `v`. -/
def _read_store (now : String) (fileContent : Option Value) : Value :=
  match fileContent with
  | none => _default_store now
  | some v => (_normalize_store now v).getD (_default_store now)

/-- `Handler._read_json` from `sync_server.py`, with the HTTP plumbing
abstracted: `contentLength` is the parsed `Content-Length` header (`none`
models the `ValueError` branch), `decoded` is the result of
`json.loads(raw.decode("utf-8"))` (`none` models a decode exception).
Returns `some d` only for a dict top-level value, exactly as the source
(`return data if isinstance(data, dict) else None`). -/
def read_json (contentLength : Option Int) (decoded : Option Value) :
    Option Value :=
  match contentLength with
  | none => none
  | some size =>
    if size ≤ 0 ∨ size > 25000000 then none
    else
      match decoded with
      | none => none
      | some data => if data.isObj then some data else none

/-- `str(data.get("client", "ANON"))[:120]` from `do_POST`. -/
def clientOf (data : Value) : String :=
  (pyStr (dgetD data "client" (.str "ANON"))).take 120

/-- `str(data.get("source", ""))[:120]` from `do_POST`. -/
def sourceOf (data : Value) : String :=
  (pyStr (dgetD data "source" (.str ""))).take 120

/-- The history entry dict `do_POST` prepends:
`\x7b"rev": STORE["rev"], "at": now, "client": client, "source": source\x7d`. -/
def histEntry (rev : Int) (at_ client source : String) : Value :=
  .obj [("rev", .int rev), ("at", .str at_), ("client", .str client),
        ("source", .str source)]

/-- The `history` list read by `do_POST`:
`hist = STORE.setdefault("history", [])` followed by
`if not isinstance(hist, list): hist = []`. -/
def histList (s : Value) : List Value :=
  match dgetD s "history" (.list []) with
  | .list xs => xs
  | _ => []

/-- The 400 payload of `do_POST`:
`\x7b"ok": False, "error": "Invalid payload: expected object with 'state'"\x7d`. -/
def invalidPayload : Value :=
  .obj [("ok", .bool false),
        ("error", .str "Invalid payload: expected object with \x27state\x27")]

/-- Outcome of one `POST /api/state` call.  `store` is the module-level
`STORE` after the handler returns (or after the exception unwinds);
`response` is the `(status, body)` pair sent by `_send_json`, `none` when an
exception escapes before any response is sent; `written` is the content the
backing file holds afterwards if it changed (`os.replace` succeeded), `none`
when the file kept its previous content. -/
structure PostResult where
  store : Value
  response : Option (Nat × Value)
  written : Option Value

/-- `Handler.do_POST` on path `/api/state` from `sync_server.py`.

`body` is the value `_read_json` returned (`none` for its `None`), `now` the
`iso_now()` timestamp taken before the lock, and `persistOk` whether the
`_write_store` call succeeds (`false` models an I/O error raised by the
`open`/`json.dump`/`os.replace` chain, in which case no response is sent and
the backing file is unchanged, but the in-memory `STORE` keeps whatever the
lines above `_write_store(STORE)` did to it).

The result is `none` when `int(STORE.get("rev", 0))` itself raises, which
never happens on stores produced by `_default_store`, `_normalize_store` or
an earlier `do_POST`. -/
def do_POST_state (store : Value) (body : Option Value) (now : String)
    (persistOk : Bool) : Option PostResult :=
  match body with
  | none => some ⟨store, some (400, invalidPayload), none⟩
  | some data =>
    if !pyTruthy data || !(dgetD data "state" .null).isObj then
      some ⟨store, some (400, invalidPayload), none⟩
    else
      let client := clientOf data
      let source := sourceOf data
      let store1 := dset store "state" (dgetD data "state" .null)
      match pyInt (dgetD store1 "rev" (.int 0)) with
      | none => none
      | some oldRev =>
        let store2 := dset store1 "rev" (.int (oldRev + 1))
        let store3 := dset store2 "updated_at" (.str now)
        let hist := (histEntry (oldRev + 1) now client source ::
          histList store3).take 200
        let store4 := dset store3 "history" (.list hist)
        if persistOk then
          some ⟨store4,
            some (200, .obj [("ok", .bool true),
              ("rev", dgetD store4 "rev" .null),
              ("updated_at", dgetD store4 "updated_at" .null)]),
            some store4⟩
        else
          some ⟨store4, none, none⟩

/-- A sequence of `POST /api/state` calls issued one at a time, each with a
successful persist step: `(body, now)` per request. -/
def runUpserts : Value → List (Value × String) → Option Value
  | s, [] => some s
  | s, (body, now) :: rest =>
    match do_POST_state s (some body) now true with
    | none => none
    | some res => runUpserts res.store rest

/-- A snapshot of the shape the spec calls well-formed: integer `rev`,
non-empty string `updated_at`, dict `state`, and a `history` list of at most
200 entries. -/
def wellFormedStore (s : Value) : Prop :=
  (∃ n : Int, dget s "rev" = some (.int n)) ∧
  (∃ u : String, u ≠ "" ∧ dget s "updated_at" = some (.str u)) ∧
  (∃ st : Value, dget s "state" = some st ∧ st.isObj = true) ∧
  (∃ hs : List Value, dget s "history" = some (.list hs) ∧ hs.length ≤ 200)

/-- A store dict carrying exactly the four canonical fields, in the order
`_default_store`/`_normalize_store` produce them. -/
def canonicalStore (r : Int) (u : String) (st : Value) (hs : List Value) :
    Value :=
  .obj [("rev", .int r), ("updated_at", .str u), ("state", st),
        ("history", .list hs)]

/-- Concrete store fields used by the witness instantiations: the fields of
`_default_store "T0"`. -/
def sampleFields : List (String × Value) :=
  [("rev", .int 0), ("updated_at", .str "T0"), ("state", .obj []),
   ("history", .list [])]

/-- A concrete valid upsert body used by the witness instantiations. -/
def sampleBody : Value :=
  .obj [("state", .obj [("a", .int 1)]), ("client", .str "X")]

/-! ## Basic lemmas about the dict operations -/

theorem isObj_exists_obj {s : Value} (h : s.isObj = true) :
    ∃ fs, s = .obj fs := by
  cases s <;> simp [Value.isObj] at h ⊢

theorem findVal_dsetList_self (fs : List (String × Value)) (k : String)
    (v : Value) : findVal (dsetList fs k v) k = some v := by
  induction fs with
  | nil => simp [dsetList, findVal]
  | cons p ps ih =>
    by_cases h : p.1 = k
    · simp [dsetList, findVal, h]
    · simp [dsetList, findVal, h, ih]

theorem findVal_dsetList_ne (fs : List (String × Value)) (k : String)
    (v : Value) (k' : String) (h : k' ≠ k) :
    findVal (dsetList fs k v) k' = findVal fs k' := by
  induction fs with
  | nil => simp [dsetList, findVal, Ne.symm h]
  | cons p ps ih =>
    by_cases hpk : p.1 = k
    · simp [dsetList, findVal, hpk, Ne.symm h]
    · by_cases hpk' : p.1 = k'
      · simp [dsetList, findVal, hpk, hpk', h]
      · simp [dsetList, findVal, hpk, hpk', ih]

theorem dget_dset_self (fs : List (String × Value)) (k : String) (v : Value) :
    dget (dset (.obj fs) k v) k = some v := by
  simp [dset, dget, findVal_dsetList_self]

theorem dget_dset_ne (fs : List (String × Value)) (k : String) (v : Value)
    (k' : String) (h : k' ≠ k) :
    dget (dset (.obj fs) k v) k' = dget (.obj fs) k' := by
  simp [dset, dget, findVal_dsetList_ne _ _ _ _ h]

theorem isObj_dset (fs : List (String × Value)) (k : String) (v : Value) :
    (dset (.obj fs) k v).isObj = true := by
  simp [dset, Value.isObj]

/-! ## The invalid-input branches of `do_POST` -/

/-- Missing/undecodable/non-dict body (`_read_json` returned `None`):
400 response, store unchanged, nothing written. -/
theorem do_POST_reject_none (store : Value) (now : String) (persistOk : Bool) :
    do_POST_state store none now persistOk =
      some ⟨store, some (400, invalidPayload), none⟩ := rfl

/-- Body whose `state` field is not a dict: 400 response, store unchanged,
nothing written. -/
theorem do_POST_reject_state (store data : Value) (now : String)
    (persistOk : Bool) (h : (dgetD data "state" .null).isObj = false) :
    do_POST_state store (some data) now persistOk =
      some ⟨store, some (400, invalidPayload), none⟩ := by
  simp [do_POST_state, h]

/-- Falsy body (`not data`, i.e. the empty dict): 400 response, store
unchanged, nothing written. -/
theorem do_POST_reject_falsy (store data : Value) (now : String)
    (persistOk : Bool) (h : pyTruthy data = false) :
    do_POST_state store (some data) now persistOk =
      some ⟨store, some (400, invalidPayload), none⟩ := by
  simp [do_POST_state, h]

/-! ## The mutating branch of `do_POST` -/

/-- One `POST /api/state` call on a dict store whose `rev` entry is an
integer, with a valid body: the closed form of everything `do_POST` does
to the store, the response and the backing file. -/
theorem do_POST_success (fs : List (String × Value)) (body : Value)
    (now : String) (persistOk : Bool) (r : Int)
    (hrev : findVal fs "rev" = some (.int r))
    (htr : pyTruthy body = true)
    (hst : (dgetD body "state" .null).isObj = true) :
    ∃ res : PostResult,
      do_POST_state (.obj fs) (some body) now persistOk = some res ∧
      res.store.isObj = true ∧
      dget res.store "rev" = some (.int (r + 1)) ∧
      dget res.store "updated_at" = some (.str now) ∧
      dget res.store "state" = some (dgetD body "state" .null) ∧
      dget res.store "history" = some (.list
        ((histEntry (r + 1) now (clientOf body) (sourceOf body) ::
          histList (.obj fs)).take 200)) ∧
      (persistOk = true →
        res.response = some (200, .obj [("ok", .bool true),
          ("rev", .int (r + 1)), ("updated_at", .str now)]) ∧
        res.written = some res.store) ∧
      (persistOk = false → res.response = none ∧ res.written = none) := by
  have hne1 : ("rev" : String) ≠ "state" := by decide
  have hne2 : ("updated_at" : String) ≠ "rev" := by decide
  have hne3 : ("updated_at" : String) ≠ "state" := by decide
  have hne4 : ("history" : String) ≠ "updated_at" := by decide
  have hne5 : ("history" : String) ≠ "rev" := by decide
  have hne6 : ("history" : String) ≠ "state" := by decide
  have hne7 : ("rev" : String) ≠ "updated_at" := by decide
  have hne8 : ("state" : String) ≠ "updated_at" := by decide
  have hne9 : ("state" : String) ≠ "rev" := by decide
  -- the four successive states of the STORE dict inside the lock
  set st := dgetD body "state" Value.null with hstdef
  set store1 := dset (.obj fs) "state" st with hs1
  obtain ⟨fs1, hfs1⟩ := isObj_exists_obj (s := store1) (by
    rw [hs1]; exact isObj_dset _ _ _)
  set store2 := dset store1 "rev" (.int (r + 1)) with hs2
  obtain ⟨fs2, hfs2⟩ := isObj_exists_obj (s := store2) (by
    rw [hs2, hfs1]; exact isObj_dset _ _ _)
  set store3 := dset store2 "updated_at" (.str now) with hs3
  obtain ⟨fs3, hfs3⟩ := isObj_exists_obj (s := store3) (by
    rw [hs3, hfs2]; exact isObj_dset _ _ _)
  -- lookups on the intermediate states
  have hrev1 : dget store1 "rev" = some (.int r) := by
    rw [hs1, dget_dset_ne _ _ _ _ hne1]; exact hrev
  have hhist3 : dget store3 "history" = dget (.obj fs) "history" := by
    rw [hs3, hfs2, dget_dset_ne _ _ _ _ hne4, ← hfs2, hs2, hfs1,
      dget_dset_ne _ _ _ _ hne5, ← hfs1, hs1, dget_dset_ne _ _ _ _ hne6]
  have hhistL : histList store3 = histList (.obj fs) := by
    unfold histList dgetD
    rw [hhist3]
  have hpy : pyInt (dgetD store1 "rev" (.int 0)) = some r := by
    rw [dgetD, hrev1]; rfl
  set hist := (histEntry (r + 1) now (clientOf body) (sourceOf body) ::
    histList store3).take 200 with hhist
  set store4 := dset store3 "history" (.list hist) with hs4
  have hobj4 : store4.isObj = true := by
    rw [hs4, hfs3]; exact isObj_dset _ _ _
  have hrev4 : dget store4 "rev" = some (.int (r + 1)) := by
    rw [hs4, hfs3, dget_dset_ne _ _ _ _ hne5.symm, ← hfs3, hs3, hfs2,
      dget_dset_ne _ _ _ _ hne2.symm, ← hfs2, hs2, hfs1, dget_dset_self]
  have hupd4 : dget store4 "updated_at" = some (.str now) := by
    rw [hs4, hfs3, dget_dset_ne _ _ _ _ hne4.symm, ← hfs3, hs3, hfs2,
      dget_dset_self]
  have hst4 : dget store4 "state" = some st := by
    rw [hs4, hfs3, dget_dset_ne _ _ _ _ hne6.symm, ← hfs3, hs3, hfs2,
      dget_dset_ne _ _ _ _ hne8, ← hfs2, hs2, hfs1,
      dget_dset_ne _ _ _ _ hne9, ← hfs1, hs1, dget_dset_self]
  have hhist4 : dget store4 "history" = some (.list hist) := by
    rw [hs4, hfs3, dget_dset_self]
  have hmain : do_POST_state (.obj fs) (some body) now persistOk =
      some (if persistOk then
        ⟨store4, some (200, .obj [("ok", .bool true),
          ("rev", dgetD store4 "rev" .null),
          ("updated_at", dgetD store4 "updated_at" .null)]), some store4⟩
      else ⟨store4, none, none⟩) := by
    rw [do_POST_state]
    simp only [htr, hst, Bool.not_true, Bool.false_or, Bool.or_self,
      if_false, ← hstdef, ← hs1, hpy, ← hs2, ← hs3, ← hhist, ← hs4]
    cases persistOk <;> rfl
  refine ⟨_, hmain, ?_⟩
  have hget4r : dgetD store4 "rev" Value.null = .int (r + 1) := by
    rw [dgetD, hrev4]; rfl
  have hget4u : dgetD store4 "updated_at" Value.null = .str now := by
    rw [dgetD, hupd4]; rfl
  cases persistOk <;>
    simp_all [hobj4, hrev4, hupd4, hst4, hhist4, hhistL]

/-! ## Claim C2: persistence before acknowledgment -/

/-- C2 (confirmed): for every successful upsert (`_write_store` succeeds) on
a dict store with integer `rev`, the content renamed into the backing file
is exactly the final in-memory `STORE` — same revision, `updated_at`,
document and history — and only then is the 200 response with the new
`(rev, updated_at)` sent. -/
theorem C2_durability_before_ack (fs : List (String × Value)) (body : Value)
    (now : String) (r : Int)
    (hrev : findVal fs "rev" = some (.int r))
    (htr : pyTruthy body = true)
    (hst : (dgetD body "state" .null).isObj = true) :
    ∃ res : PostResult,
      do_POST_state (.obj fs) (some body) now true = some res ∧
      res.written = some res.store ∧
      res.response = some (200, .obj [("ok", .bool true),
        ("rev", .int (r + 1)), ("updated_at", .str now)]) := by
  obtain ⟨res, h1, _, _, _, _, _, hok, _⟩ :=
    do_POST_success fs body now true r hrev htr hst
  obtain ⟨hresp, hwr⟩ := hok rfl
  exact ⟨res, h1, hwr, hresp⟩

/-- Witness for C2 at a concrete store and body. -/
theorem C2_durability_before_ack_witness :
    ∃ res : PostResult,
      do_POST_state (.obj sampleFields) (some sampleBody) "T1" true =
        some res ∧
      res.written = some res.store ∧
      res.response = some (200, .obj [("ok", .bool true),
        ("rev", .int 1), ("updated_at", .str "T1")]) :=
  C2_durability_before_ack sampleFields sampleBody "T1" 0 rfl rfl rfl

/-! ## Claim C1: a failing persist leaves the snapshot mutated -/

/-- C1 (counterexample): starting from the freshly persisted default store
(revision 0) and upserting a valid body while `_write_store` fails, the
operation indeed sends no success response and the backing file is
unchanged, but the in-memory `STORE` does NOT remain equal to the
pre-upsert state: its revision is now 1, not 0. -/
theorem C1_counterexample :
    (do_POST_state (_default_store "T0") (some sampleBody) "T1" false).map
        (fun res => (res.response, res.written, dget res.store "rev")) =
      some (none, none, some (.int 1)) ∧
    dget (_default_store "T0") "rev" = some (.int 0) := ⟨rfl, rfl⟩

/-- C1 (amended): if the persistence step of an upsert fails, the caller
observes no successful revision bump (no response is sent) and the backing
file keeps its previous content, but the in-memory snapshot does not remain
at the last persisted state: `do_POST` mutates `STORE` before calling
`_write_store`, so after the failure the in-memory revision is already the
pre-upsert revision plus one. -/
theorem C1_persist_failure_mutates (fs : List (String × Value))
    (body : Value) (now : String) (r : Int)
    (hrev : findVal fs "rev" = some (.int r))
    (htr : pyTruthy body = true)
    (hst : (dgetD body "state" .null).isObj = true) :
    ∃ res : PostResult,
      do_POST_state (.obj fs) (some body) now false = some res ∧
      res.response = none ∧
      res.written = none ∧
      dget res.store "rev" = some (.int (r + 1)) := by
  obtain ⟨res, h1, _, hrev4, _, _, _, _, hfail⟩ :=
    do_POST_success fs body now false r hrev htr hst
  obtain ⟨hr, hw⟩ := hfail rfl
  exact ⟨res, h1, hr, hw, hrev4⟩

/-- Witness for the amended C1 at a concrete store and body. -/
theorem C1_persist_failure_mutates_witness :
    ∃ res : PostResult,
      do_POST_state (.obj sampleFields) (some sampleBody) "T1" false =
        some res ∧
      res.response = none ∧
      res.written = none ∧
      dget res.store "rev" = some (.int 1) :=
  C1_persist_failure_mutates sampleFields sampleBody "T1" 0 rfl rfl rfl

/-! ## Claim C7: invalid `state` field leaves the store untouched -/

/-- C7 (confirmed): an upsert whose `state` field is not a dict is answered
with the 400 invalid-payload error; the in-memory store is returned exactly
as it was and nothing is written to the backing file. -/
theorem C7_invalid_state_rejected (store data : Value) (now : String)
    (persistOk : Bool) (h : (dgetD data "state" .null).isObj = false) :
    do_POST_state store (some data) now persistOk =
      some ⟨store, some (400, invalidPayload), none⟩ :=
  do_POST_reject_state store data now persistOk h

/-- Witness for C7: body whose `state` is a string. -/
theorem C7_invalid_state_rejected_witness :
    do_POST_state (.obj sampleFields)
        (some (.obj [("state", .str "nope")])) "T1" true =
      some ⟨.obj sampleFields, some (400, invalidPayload), none⟩ :=
  C7_invalid_state_rejected (.obj sampleFields)
    (.obj [("state", .str "nope")]) "T1" true rfl

/-! ## Claim C9: non-object request bodies are rejected upfront -/

/-- C9 (confirmed): `_read_json` maps any HTTP body whose JSON decode is not
an object (array, string, number, null — and likewise undecodable bytes) to
`None`, and `do_POST` answers that `None` with the same 400 invalid-payload
error used for a bad `state` field, before the store is read or modified and
with nothing written. -/
theorem C9_nonobject_body_rejected (contentLength : Option Int) (v : Value)
    (store : Value) (now : String) (persistOk : Bool)
    (hv : v.isObj = false) :
    read_json contentLength (some v) = none ∧
    do_POST_state store (read_json contentLength (some v)) now persistOk =
      some ⟨store, some (400, invalidPayload), none⟩ := by
  have h1 : read_json contentLength (some v) = none := by
    unfold read_json
    cases contentLength with
    | none => rfl
    | some size =>
      by_cases hs : size ≤ 0 ∨ size > 25000000 <;> simp [hs, hv]
  exact ⟨h1, by rw [h1]; rfl⟩

/-- Witness for C9: a top-level JSON array body. -/
theorem C9_nonobject_body_rejected_witness :
    read_json (some 10) (some (.list [.int 1])) = none ∧
    do_POST_state (.obj sampleFields) (read_json (some 10)
        (some (.list [.int 1]))) "T1" true =
      some ⟨.obj sampleFields, some (400, invalidPayload), none⟩ :=
  C9_nonobject_body_rejected (some 10) (.list [.int 1])
    (.obj sampleFields) "T1" true rfl

/-! ## Claim C3: the revision counts the successful upserts -/

/-- Running a sequence of valid upserts one at a time from a dict store with
integer `rev` succeeds and adds the length of the sequence to `rev`. -/
theorem runUpserts_rev (reqs : List (Value × String)) :
    ∀ (fs : List (String × Value)) (r : Int),
      findVal fs "rev" = some (.int r) →
      (∀ p ∈ reqs, pyTruthy p.1 = true ∧
        (dgetD p.1 "state" .null).isObj = true) →
      ∃ gs : List (String × Value),
        runUpserts (.obj fs) reqs = some (.obj gs) ∧
        findVal gs "rev" = some (.int (r + reqs.length)) := by
  induction reqs with
  | nil =>
    intro fs r h _
    exact ⟨fs, rfl, by simpa using h⟩
  | cons q rest ih =>
    obtain ⟨body, now⟩ := q
    intro fs r h hval
    obtain ⟨hq1, hq2⟩ := hval (body, now) (List.mem_cons_self _ _)
    obtain ⟨res, hpost, hobj, hrev', _, _, _, _, _⟩ :=
      do_POST_success fs body now true r h hq1 hq2
    obtain ⟨gs0, hgs0⟩ := isObj_exists_obj hobj
    have hrev0 : findVal gs0 "rev" = some (.int (r + 1)) := by
      have := hrev'
      rw [hgs0] at this
      exact this
    obtain ⟨gs, hrun, hrevg⟩ := ih gs0 (r + 1) hrev0
      (fun p hp => hval p (List.mem_cons_of_mem _ hp))
    refine ⟨gs, ?_, ?_⟩
    · simp only [runUpserts, hpost, hgs0]
      exact hrun
    · rw [hrevg]
      have harith : r + 1 + (rest.length : Int) =
          r + (((body, now) :: rest).length : Int) := by
        simp only [List.length_cons]
        push_cast
        ring
      rw [harith]

/-- C3 (confirmed): starting from the fresh default store (revision 0),
any sequence of N valid upserts issued one at a time all succeed and leave
the revision at exactly N — each upsert adds exactly 1, so there are no
gaps, and no other code path in the handler assigns `STORE["rev"]`. -/
theorem C3_revision_equals_upsert_count (now0 : String)
    (reqs : List (Value × String))
    (hval : ∀ p ∈ reqs, pyTruthy p.1 = true ∧
      (dgetD p.1 "state" .null).isObj = true) :
    ∃ s : Value, runUpserts (_default_store now0) reqs = some s ∧
      dget s "rev" = some (.int reqs.length) := by
  obtain ⟨gs, h1, h2⟩ := runUpserts_rev reqs
    [("rev", .int 0), ("updated_at", .str now0), ("state", .obj []),
     ("history", .list [])] 0 rfl hval
  refine ⟨.obj gs, h1, ?_⟩
  simpa [dget] using h2

/-- Witness for C3: two upserts from the fresh store end at revision 2. -/
theorem C3_revision_equals_upsert_count_witness :
    ∃ s : Value,
      runUpserts (_default_store "T0")
        [(sampleBody, "T1"), (sampleBody, "T2")] = some s ∧
      dget s "rev" = some (.int 2) :=
  C3_revision_equals_upsert_count "T0" [(sampleBody, "T1"), (sampleBody, "T2")]
    (by
      intro p hp
      rcases List.mem_cons.mp hp with rfl | hp2
      · exact ⟨rfl, rfl⟩
      · rcases List.mem_cons.mp hp2 with rfl | hp3
        · exact ⟨rfl, rfl⟩
        · exact absurd hp3 (List.not_mem_nil _))

/-! ## The shape of every normalized store -/

/-- Shape of every value `_normalize_store` returns (when it does not
raise): exactly the four canonical fields, with an integer `rev`, a dict
`state`, at most 200 history entries, and an `updated_at` that is non-empty
whenever `now` is. -/
theorem normalize_shape (now : String) (raw s : Value)
    (h : _normalize_store now raw = some s) :
    ∃ (rev : Int) (u : String) (st : Value) (hs : List Value),
      s = canonicalStore rev u st hs ∧
      st.isObj = true ∧ hs.length ≤ 200 ∧ (now ≠ "" → u ≠ "") := by
  cases raw
  case obj fields =>
    simp only [_normalize_store] at h
    split at h
    · exact absurd h (by simp)
    · rename_i rev heq
      injection h with h'
      subst h'
      refine ⟨rev, _, _, _, rfl, ?_, ?_, ?_⟩
      · split
        · assumption
        · rfl
      · rw [List.length_take]
        exact min_le_left _ _
      · intro hnow
        split
        · exact hnow
        · rename_i hue
          intro hcon
          exact hue (by rw [hcon]; rfl)
  all_goals
    simp only [_normalize_store] at h
    injection h with h'
    subst h'
    exact ⟨0, now, .obj [], [], rfl, rfl, by simp, fun hn => hn⟩

/-! ## Claim C4: history is capped at 200 with FIFO eviction -/

/-- C4 (confirmed): (1) every store `_normalize_store` returns carries a
history of at most 200 entries (the file's list is truncated to its first
200); (2) every successful upsert replaces the history with the new entry
prepended at index 0 followed by the old entries, truncated to 200 — so the
oldest entries fall off the tail (FIFO), the list never exceeds 200, and
the entry at index 0 is the one carrying the new current revision. -/
theorem C4_history_capped :
    (∀ (now : String) (raw s : Value), _normalize_store now raw = some s →
      ∃ hs : List Value, dget s "history" = some (.list hs) ∧
        hs.length ≤ 200) ∧
    (∀ (fs : List (String × Value)) (body : Value) (now : String) (r : Int),
      findVal fs "rev" = some (.int r) → pyTruthy body = true →
      (dgetD body "state" .null).isObj = true →
      ∃ res : PostResult,
        do_POST_state (.obj fs) (some body) now true = some res ∧
        dget res.store "history" = some (.list
          ((histEntry (r + 1) now (clientOf body) (sourceOf body) ::
            histList (.obj fs)).take 200)) ∧
        ((histEntry (r + 1) now (clientOf body) (sourceOf body) ::
          histList (.obj fs)).take 200).length ≤ 200 ∧
        ((histEntry (r + 1) now (clientOf body) (sourceOf body) ::
          histList (.obj fs)).take 200).head? =
          some (histEntry (r + 1) now (clientOf body) (sourceOf body)) ∧
        dget res.store "rev" = some (.int (r + 1))) := by
  constructor
  · intro now raw s h
    obtain ⟨rev, u, st, hs, rfl, _, hlen, _⟩ := normalize_shape now raw s h
    exact ⟨hs, rfl, hlen⟩
  · intro fs body now r hrev htr hst
    obtain ⟨res, h1, _, hrev4, _, _, hhist4, _, _⟩ :=
      do_POST_success fs body now true r hrev htr hst
    refine ⟨res, h1, hhist4, ?_, ?_, hrev4⟩
    · rw [List.length_take]
      exact min_le_left _ _
    · rfl

/-- Witness for C4: the normalize half on a file with a 2-entry history,
the upsert half on the sample store and body. -/
theorem C4_history_capped_witness :
    (∃ hs : List Value,
      dget (.obj [("rev", .int 1), ("updated_at", .str "U"),
        ("state", .obj []), ("history", .list [.int 7, .int 8])])
        "history" = some (.list hs) ∧ hs.length ≤ 200) ∧
    (∃ res : PostResult,
      do_POST_state (.obj sampleFields) (some sampleBody) "T1" true =
        some res ∧
      dget res.store "history" = some (.list
        ((histEntry 1 "T1" (clientOf sampleBody) (sourceOf sampleBody) ::
          histList (.obj sampleFields)).take 200)) ∧
      ((histEntry 1 "T1" (clientOf sampleBody) (sourceOf sampleBody) ::
        histList (.obj sampleFields)).take 200).length ≤ 200 ∧
      ((histEntry 1 "T1" (clientOf sampleBody) (sourceOf sampleBody) ::
        histList (.obj sampleFields)).take 200).head? =
        some (histEntry 1 "T1" (clientOf sampleBody) (sourceOf sampleBody)) ∧
      dget res.store "rev" = some (.int 1)) :=
  ⟨C4_history_capped.1 "T" (.obj [("rev", .int 1), ("updated_at", .str "U"),
      ("state", .obj []), ("history", .list [.int 7, .int 8])])
      (.obj [("rev", .int 1), ("updated_at", .str "U"),
        ("state", .obj []), ("history", .list [.int 7, .int 8])]) rfl,
   C4_history_capped.2 sampleFields sampleBody "T1" 0 rfl rfl rfl⟩

/-! ## Claim C6: `history[0].rev == rev` is not established by Normalize -/

/-- C6 (counterexample): loading a backing file whose stored revision is 5
but whose first history entry carries revision 3 yields — via
`_normalize_store`, with no error — a snapshot with non-empty history whose
`history[0]["rev"]` is 3 while `rev` is 5, violating the claimed invariant
right after Load/Normalize. -/
theorem C6_counterexample :
    (_normalize_store "T0" (.obj [("rev", .int 5),
        ("history", .list [.obj [("rev", .int 3)]])])).map
      (fun s => (dget s "rev",
        (histList s).head?.map (fun e => dget e "rev"))) =
      some (some (.int 5), some (some (.int 3))) ∧
    (3 : Int) ≠ 5 := ⟨rfl, by decide⟩

/-- C6 (amended): the invariant `history[0].rev == rev` is established by
every successful upsert — the handler prepends an entry carrying the new
revision — and therefore holds after any sequence of upserts; but
`_normalize_store` copies the file's history verbatim, so it does not hold
after loading arbitrary backing-file content (see the counterexample). -/
theorem C6_history_head_after_upsert (fs : List (String × Value))
    (body : Value) (now : String) (r : Int)
    (hrev : findVal fs "rev" = some (.int r))
    (htr : pyTruthy body = true)
    (hst : (dgetD body "state" .null).isObj = true) :
    ∃ (res : PostResult) (hs : List Value),
      do_POST_state (.obj fs) (some body) now true = some res ∧
      dget res.store "history" = some (.list hs) ∧
      hs.head? = some (histEntry (r + 1) now (clientOf body)
        (sourceOf body)) ∧
      dget (histEntry (r + 1) now (clientOf body) (sourceOf body)) "rev" =
        some (.int (r + 1)) ∧
      dget res.store "rev" = some (.int (r + 1)) := by
  obtain ⟨res, h1, _, hrev4, _, _, hhist4, _, _⟩ :=
    do_POST_success fs body now true r hrev htr hst
  exact ⟨res, _, h1, hhist4, rfl, rfl, hrev4⟩

/-- Witness for the amended C6 at the sample store and body. -/
theorem C6_history_head_after_upsert_witness :
    ∃ (res : PostResult) (hs : List Value),
      do_POST_state (.obj sampleFields) (some sampleBody) "T1" true =
        some res ∧
      dget res.store "history" = some (.list hs) ∧
      hs.head? = some (histEntry 1 "T1" (clientOf sampleBody)
        (sourceOf sampleBody)) ∧
      dget (histEntry 1 "T1" (clientOf sampleBody) (sourceOf sampleBody))
        "rev" = some (.int 1) ∧
      dget res.store "rev" = some (.int 1) :=
  C6_history_head_after_upsert sampleFields sampleBody "T1" 0 rfl rfl rfl

/-! ## Claim C5: Normalize can raise on an invalid `rev` -/

/-- C5 (counterexample): `_normalize_store` raises (returns `none` in the
embedding) on a mapping whose `rev` is the non-numeric string `"abc"`, and
likewise on a mapping whose `rev` is the non-empty list `[1]`: both values
are truthy, so `int(raw.get("rev", 0) or 0)` receives them unchanged and
raises instead of defaulting to 0. -/
theorem C5_counterexample :
    _normalize_store "T0" (.obj [("rev", .str "abc")]) = none ∧
    _normalize_store "T0" (.obj [("rev", .list [.int 1])]) = none :=
  ⟨rfl, rfl⟩

/-- A canonical store with non-empty `updated_at`, dict `state` and at most
200 history entries is well-formed. -/
theorem canonicalStore_wellFormed (r : Int) (u : String) (st : Value)
    (hs : List Value) (hu : u ≠ "") (hst : st.isObj = true)
    (hlen : hs.length ≤ 200) : wellFormedStore (canonicalStore r u st hs) :=
  ⟨⟨r, rfl⟩, ⟨u, hu, rfl⟩, ⟨st, rfl, hst⟩, ⟨hs, rfl, hlen⟩⟩

/-- C5 (amended): whenever `_normalize_store` returns (its `rev` coercion
does not raise), the result is a well-formed snapshot; and the full load
path `_read_store` — whose `try/except` absorbs the raise — always yields a
well-formed snapshot.  But `_normalize_store` itself is not total: see the
counterexample. -/
theorem C5_normalize_wellformed_when_returning (now : String)
    (hn : now ≠ "") :
    (∀ raw s, _normalize_store now raw = some s → wellFormedStore s) ∧
    (∀ content : Option Value, wellFormedStore (_read_store now content)) := by
  have hmain : ∀ raw s, _normalize_store now raw = some s →
      wellFormedStore s := by
    intro raw s h
    obtain ⟨rev, u, st, hs, rfl, hst, hlen, hu⟩ :=
      normalize_shape now raw s h
    exact canonicalStore_wellFormed rev u st hs (hu hn) hst hlen
  refine ⟨hmain, ?_⟩
  intro content
  cases content with
  | none => exact canonicalStore_wellFormed 0 now (.obj []) [] hn rfl (Nat.zero_le _)
  | some v =>
    show wellFormedStore ((_normalize_store now v).getD (_default_store now))
    cases hv : _normalize_store now v with
    | none =>
      exact canonicalStore_wellFormed 0 now (.obj []) [] hn rfl (Nat.zero_le _)
    | some s =>
      exact hmain v s hv

/-- Witness for the amended C5: loading the file on which
`_normalize_store` raises still yields a well-formed store. -/
theorem C5_normalize_wellformed_when_returning_witness :
    wellFormedStore (_read_store "T0" (some (.obj [("rev", .str "abc")]))) :=
  (C5_normalize_wellformed_when_returning "T0" (by decide)).2
    (some (.obj [("rev", .str "abc")]))

/-! ## Claim C8: Normalize is idempotent on well-formed snapshots -/

/-- `int(x or 0)` on an integer `rev` value is the identity. -/
theorem pyInt_rev_int (r : Int) :
    pyInt (if pyTruthy (.int r) then .int r else .int 0) = some r := by
  by_cases h : r = 0
  · subst h; rfl
  · simp [pyTruthy, pyInt, h]

/-- C8 (confirmed): `_normalize_store` maps a snapshot that is already in
canonical well-formed shape (integer `rev`, non-empty string `updated_at`,
dict `state`, history list of at most 200 entries) to itself. -/
theorem C8_normalize_idempotent (now : String) (r : Int) (u : String)
    (st : Value) (hs : List Value) (hu : u ≠ "") (hst : st.isObj = true)
    (hlen : hs.length ≤ 200) :
    _normalize_store now (canonicalStore r u st hs) =
      some (canonicalStore r u st hs) := by
  have hue : u.isEmpty = false := by
    rw [Bool.eq_false_iff]
    intro hcon
    exact hu ((String.isEmpty_iff u).mp hcon)
  have h1 : dgetD (canonicalStore r u st hs) "rev" (.int 0) = .int r := rfl
  have h2 : dgetD (canonicalStore r u st hs) "updated_at" (.str "") =
      .str u := rfl
  have h3 : dgetD (canonicalStore r u st hs) "state" (.obj []) = st := rfl
  have h4 : dgetD (canonicalStore r u st hs) "history" (.list []) =
      .list hs := rfl
  show _normalize_store now (.obj [("rev", .int r), ("updated_at", .str u),
    ("state", st), ("history", .list hs)]) = some (canonicalStore r u st hs)
  simp only [_normalize_store]
  rw [show dgetD (.obj [("rev", .int r), ("updated_at", .str u),
    ("state", st), ("history", .list hs)]) "rev" (.int 0) = .int r from h1,
    pyInt_rev_int]
  rw [show pyStr (dgetD (.obj [("rev", .int r), ("updated_at", .str u),
    ("state", st), ("history", .list hs)]) "updated_at" (.str "")) = u
    from congrArg pyStr h2]
  rw [hue]
  simp only [Bool.false_eq_true, if_false]
  rw [show dgetD (.obj [("rev", .int r), ("updated_at", .str u),
    ("state", st), ("history", .list hs)]) "state" (.obj []) = st from h3]
  rw [hst]
  simp only [if_true]
  rw [show dgetD (.obj [("rev", .int r), ("updated_at", .str u),
    ("state", st), ("history", .list hs)]) "history" (.list []) = .list hs
    from h4]
  rw [List.take_of_length_le hlen]
  rfl

/-- Witness for C8 on a concrete well-formed snapshot. -/
theorem C8_normalize_idempotent_witness :
    _normalize_store "T9"
        (canonicalStore 4 "U" (.obj [("k", .int 1)]) [.int 7]) =
      some (canonicalStore 4 "U" (.obj [("k", .int 1)]) [.int 7]) :=
  C8_normalize_idempotent "T9" 4 "U" (.obj [("k", .int 1)]) [.int 7]
    (by decide) rfl (by simp)

/-! ## Claim C10: Normalize keeps exactly the four canonical keys -/

/-- C10 (confirmed): whatever mapping is read from the backing file, the
snapshot `_normalize_store` returns has exactly the keys `rev`,
`updated_at`, `state`, `history`, in that order — any additional top-level
fields of the file are discarded. -/
theorem C10_normalize_exact_keys (now : String) (raw s : Value)
    (_hobj : raw.isObj = true) (h : _normalize_store now raw = some s) :
    objKeys s = ["rev", "updated_at", "state", "history"] := by
  obtain ⟨rev, u, st, hs, rfl, _, _, _⟩ := normalize_shape now raw s h
  rfl

/-- Witness for C10: a file with an extra top-level field. -/
theorem C10_normalize_exact_keys_witness :
    objKeys (canonicalStore 1 "T0" (.obj []) []) =
      ["rev", "updated_at", "state", "history"] :=
  C10_normalize_exact_keys "T0"
    (.obj [("rev", .int 1), ("extra", .int 2)])
    (canonicalStore 1 "T0" (.obj []) []) rfl rfl
